import Mathlib

/-!
Verification of the credential-lifecycle / resilient-transport subsystem of the
shipping-carrier-integration repository.

The development shallowly embeds the relevant TypeScript source:

* `src/domain/models/error.ts` (the `CarrierError` class hierarchy) becomes the
  inductive `CarrierErr`, one constructor per class, whose fields follow the
  positional constructor parameters of each class.
* `src/utils/http-client.ts` (`HttpClient`) becomes `handleError`, `shouldRetry`
  and `requestWithRetry`; JavaScript promise rejection is modelled with
  `Except`, and the axios response interceptor installed in the constructor is
  modelled by `interceptedAttempt` (every raw axios failure is transformed by
  `handleError` before the retry wrapper can observe it, exactly as the
  interceptor does).
* `src/carriers/ups/ups-auth.ts` (`UPSAuthProvider`) becomes the state type
  `AuthState` plus `hasValidToken`, `getTimeUntilExpiry`, `clearToken`,
  `acquireTokenSettle` (the acquisition body together with its catch clause,
  parameterised by the outcome of the single network exchange) and the
  cooperative-concurrency model `getTokenEnter` / `runWave` / `settleAndClear`
  described below.

JavaScript numbers that the code only ever uses as integers (epoch seconds,
HTTP statuses, millisecond delays) are modelled as `Nat` / `Int`; the JS falsy
test on a number is the test against 0, and on a string the test against the
empty string.
-/

/-- Entry of the UPS structured business-error envelope, as declared by the
`UPSErrorResponse` interface in `ups-types.ts`: `{ code, message }`. -/
structure UPSErrEntry where
  code : String
  message : String
  deriving DecidableEq

/-- Shape of an HTTP response body as far as `HttpClient.handleError` inspects
it: absent (falsy), a string, an object without a `response` key, an object
with a `response` key but no `errors` array under it, or the UPS envelope
holding a list of `{code, message}` entries. -/
inductive RespBody
  | absent
  | strBody (s : String)
  | plainObj
  | respNoErrors
  | upsEnvelope (errors : List UPSErrEntry)
  deriving DecidableEq

/-- JavaScript values as they end up stored in error-object fields: this is
what the positional constructor arguments of the `CarrierError` subclasses
receive. `jsErrorObj` stands for a JS `Error` object passed opaquely. -/
inductive JVal
  | jsUndefined
  | str (s : String)
  | num (n : Int)
  | nan
  | bodyVal (b : RespBody)
  | jsErrorObj
  deriving DecidableEq

/-- The seven kinds of the error taxonomy. -/
inductive ErrKind
  | auth
  | network
  | rateLimit
  | validation
  | business
  | response
  | config
  deriving DecidableEq

/-- The `CarrierError` class hierarchy of `src/domain/models/error.ts`, one
constructor per subclass used by the claims. Field order follows the
constructor parameter order of each class:
`CarrierAuthError(message, carrier, originalError)`,
`CarrierNetworkError(message, statusCode, carrier, originalError)`,
`CarrierRateLimitError(message, retryAfter, carrier, originalError)`,
`CarrierBusinessError(message, code, carrier, originalError)`,
`CarrierResponseError(message, response, carrier, originalError)`. -/
inductive CarrierErr
  | authErr (message : String) (carrier : Option String) (originalError : JVal)
  | networkErr (message : String) (statusCode : JVal) (carrier : JVal) (originalError : JVal)
  | rateLimitErr (message : String) (retryAfter : JVal) (carrier : JVal) (originalError : JVal)
  | businessErr (message : String) (code : String) (carrier : JVal) (originalError : JVal)
  | responseErr (message : String) (response : JVal) (carrier : JVal) (originalError : JVal)
  deriving DecidableEq

/-- The taxonomy kind of a classified error: the subclass it was raised as. -/
def CarrierErr.kind : CarrierErr → ErrKind
  | .authErr .. => .auth
  | .networkErr .. => .network
  | .rateLimitErr .. => .rateLimit
  | .businessErr .. => .business
  | .responseErr .. => .response

/-- The stable `code` attribute of `CarrierError`: fixed per subclass except
for `CarrierBusinessError`, whose constructor forwards its own `code`
parameter to the base class. -/
def CarrierErr.code : CarrierErr → String
  | .authErr .. => "AUTH_ERROR"
  | .networkErr .. => "NETWORK_ERROR"
  | .rateLimitErr .. => "RATE_LIMIT_ERROR"
  | .businessErr _ c _ _ => c
  | .responseErr .. => "RESPONSE_ERROR"

/-- The `retryAfter` field of a `CarrierRateLimitError` (second constructor
parameter, commented `// seconds` in the source), `none` for other kinds. -/
def CarrierErr.retryAfterField : CarrierErr → Option JVal
  | .rateLimitErr _ ra _ _ => some ra
  | _ => none

/-- The `statusCode` field of a `CarrierNetworkError` (second constructor
parameter), `none` for other kinds. -/
def CarrierErr.statusCodeField : CarrierErr → Option JVal
  | .networkErr _ sc _ _ => some sc
  | _ => none

/-- The `response` field of a `CarrierResponseError` (second constructor
parameter), `none` for other kinds. -/
def CarrierErr.responseField : CarrierErr → Option JVal
  | .responseErr _ r _ _ => some r
  | _ => none

/-- The `originalError` field (last constructor parameter) of any subclass. -/
def CarrierErr.originalErrorField : CarrierErr → JVal
  | .authErr _ _ o => o
  | .networkErr _ _ _ o => o
  | .rateLimitErr _ _ _ o => o
  | .businessErr _ _ _ o => o
  | .responseErr _ _ _ o => o

/-- An axios request failure as `handleError` and `shouldRetry` inspect it:
`status = none` models `error.response === undefined` (no response received);
`code` is the axios error code; `retryAfterHeader` is the value of the
`retry-after` response header when present; `body` is `error.response.data`;
`message` is `error.message`. -/
structure AxiosFailure where
  status : Option Nat
  code : Option String := none
  retryAfterHeader : Option String := none
  body : RespBody := .absent
  message : String := ""
  deriving DecidableEq

/-- Numeric value of a decimal digit character, `none` otherwise. -/
def charDigit? (c : Char) : Option Nat :=
  if c = '0' then some 0 else if c = '1' then some 1 else if c = '2' then some 2
  else if c = '3' then some 3 else if c = '4' then some 4 else if c = '5' then some 5
  else if c = '6' then some 6 else if c = '7' then some 7 else if c = '8' then some 8
  else if c = '9' then some 9 else none

/-- Accumulating base-10 parse of a character list. -/
def parseDigitsAux : List Char → Nat → Option Nat
  | [], acc => some acc
  | c :: cs, acc =>
    match charDigit? c with
    | some d => parseDigitsAux cs (acc * 10 + d)
    | none => none

/-- JavaScript `parseInt(s, 10)`: an integer for a decimal-digit string, NaN
otherwise (the only inputs exercised here are digit strings, so leading
whitespace, signs and trailing garbage are not modelled). -/
def parseIntJS (s : String) : JVal :=
  match s.toList with
  | [] => .nan
  | cs =>
    match parseDigitsAux cs 0 with
    | some n => .num (Int.ofNat n)
    | none => .nan

/-- The expression `retryAfter ? parseInt(retryAfter, 10) : undefined` applied
to the optional `retry-after` header (a missing or empty string is falsy). -/
def parseRetryAfter (h : Option String) : JVal :=
  match h with
  | none => .jsUndefined
  | some s => if s = "" then .jsUndefined else parseIntJS s

/-- An optional string field (such as `axiosError.code`) as the JS value that
a constructor argument receives. -/
def jvalOfCode (c : Option String) : JVal :=
  match c with
  | none => .jsUndefined
  | some s => .str s

/-- JavaScript `s || d` on strings: the empty string is falsy. -/
def jsOrStr (s d : String) : String :=
  if s = "" then d else s

/-- The lookup `data.response?.errors?.[0]` guarded by
`data && typeof data === 'object' && 'response' in data`, from the 4xx branch
of `HttpClient.handleError`. -/
def firstUPSError : RespBody → Option UPSErrEntry
  | .upsEnvelope errors => errors.head?
  | _ => none

/-- Shallow embedding of `HttpClient.handleError` (the axios-error branch of
`src/utils/http-client.ts`): classifies a terminal failure into a
`CarrierErr`, constructor arguments in exactly the order of the call sites in
the source. A status of `none` models a connection-level failure with no
response received. -/
def handleError (e : AxiosFailure) : CarrierErr :=
  match e.status with
  | some st =>
    if st = 429 then
      .rateLimitErr "Request rate limited" (.str "UNKNOWN") (jvalOfCode e.code)
        (parseRetryAfter e.retryAfterHeader)
    else if 500 ≤ st then
      .networkErr ("Server error: " ++ e.message) (.str "UNKNOWN") (jvalOfCode e.code)
        (.num (Int.ofNat st))
    else if 400 ≤ st then
      match firstUPSError e.body with
      | some entry =>
        .businessErr (jsOrStr entry.message "Business validation error") "UPS"
          (.str entry.code) (.bodyVal e.body)
      | none =>
        .responseErr ("Client error: " ++ e.message) (.str "UNKNOWN") (jvalOfCode e.code)
          (.bodyVal e.body)
    else
      .networkErr e.message (.str "UNKNOWN") (jvalOfCode e.code) (.num (Int.ofNat st))
  | none =>
    .networkErr ("Network error: " ++ e.message) (.str "UNKNOWN") (jvalOfCode e.code) .jsUndefined

/-- The retryable transport-level error codes listed in
`HttpClient.shouldRetry`. -/
def retryableCodes : List String :=
  ["ECONNABORTED", "ETIMEDOUT", "ENOTFOUND", "ECONNREFUSED"]

/-- An error value as caught by `requestWithRetry`: either a raw axios-shaped
failure (real axios error or the mock shape carrying an `isAxiosError`
property, which `shouldRetry` treats by the same status and code rules), or an
already-classified `CarrierError` instance, which carries no `isAxiosError`
property. -/
inductive ThrownErr
  | axios (e : AxiosFailure)
  | classified (e : CarrierErr)
  deriving DecidableEq

/-- Shallow embedding of `HttpClient.shouldRetry`: a classified
`CarrierError` fails both the `axios.isAxiosError` test and the
`'isAxiosError' in error` test, so it is never retried; an axios-shaped
failure is retried on status 5xx, status 429, or a retryable transport code. -/
def shouldRetry : ThrownErr → Bool
  | .classified _ => false
  | .axios e =>
    match e.status with
    | some st =>
      if 500 ≤ st then true
      else if st = 429 then true
      else
        match e.code with
        | some c => retryableCodes.contains c
        | none => false
    | none =>
      match e.code with
      | some c => retryableCodes.contains c
      | none => false

/-- Observable outcome of `requestWithRetry`: the settled result, the number
of attempts performed, and the backoff delays (in ms) awaited between
attempts. -/
structure RetryOutcome (α : Type) where
  result : Except ThrownErr α
  attempts : Nat
  delays : List Nat

/-- Body of `HttpClient.requestWithRetry`, recursing on the remaining retry
budget `maxRetries - retryCount` (the guard `retryCount < this.maxRetries`
holds exactly when the remaining budget is nonzero). The delay before the
retry that follows attempt `retryCount` is `retryDelay * 2 ^ retryCount`. -/
def requestWithRetryB (retryDelay : Nat) (attemptFn : Nat → Except ThrownErr α) :
    Nat → Nat → RetryOutcome α
  | retryCount, budget =>
    match attemptFn retryCount with
    | .ok v => ⟨.ok v, 1, []⟩
    | .error e =>
      match budget with
      | 0 => ⟨.error e, 1, []⟩
      | b + 1 =>
        if shouldRetry e then
          let rest := requestWithRetryB retryDelay attemptFn (retryCount + 1) b
          ⟨rest.result, rest.attempts + 1, (retryDelay * 2 ^ retryCount) :: rest.delays⟩
        else ⟨.error e, 1, []⟩

/-- Public entry of the retry wrapper: `requestWithRetry(requestFn)` starts at
`retryCount = 0` with the full budget `maxRetries`. -/
def requestWithRetry (maxRetries retryDelay : Nat) (attemptFn : Nat → Except ThrownErr α) :
    RetryOutcome α :=
  requestWithRetryB retryDelay attemptFn 0 maxRetries

/-- The response interceptor installed in the `HttpClient` constructor: every
raw axios failure of an attempt is transformed by `handleError` (which throws
a classified `CarrierError`) before the promise returned by the client method
rejects, so `requestWithRetry` only ever catches classified errors. -/
def interceptedAttempt (transport : Nat → Except AxiosFailure α) (n : Nat) :
    Except ThrownErr α :=
  match transport n with
  | .ok v => .ok v
  | .error ax => .error (.classified (handleError ax))

/-- A transport that fails every attempt with HTTP 503 and no retryable
transport code, as in the retry-ceiling scenario of the spec. -/
def always503 : Nat → Except AxiosFailure Unit :=
  fun _ => .error { status := some 503, message := "Request failed with status code 503" }

/-- Configuration record accepted by the `HttpClient` constructor; `none`
models an absent property. -/
structure HttpClientConfig where
  timeout : Option Nat := none
  maxRetries : Option Nat := none
  retryDelay : Option Nat := none

/-- The effective numeric settings the `HttpClient` constructor stores. -/
structure HttpClientSettings where
  maxRetries : Nat
  retryDelay : Nat
  timeout : Nat
  deriving DecidableEq

/-- JavaScript `x || d` on an optional number: both an absent value and an
explicit 0 are falsy and yield the default. -/
def jsNumOr (x : Option Nat) (d : Nat) : Nat :=
  match x with
  | none => d
  | some v => if v = 0 then d else v

/-- The assignments of the `HttpClient` constructor:
`maxRetries = config.maxRetries || 3`, `retryDelay = config.retryDelay || 1000`,
`timeout: config.timeout || 30000`. -/
def HttpClient.construct (cfg : HttpClientConfig) : HttpClientSettings :=
  { maxRetries := jsNumOr cfg.maxRetries 3
    retryDelay := jsNumOr cfg.retryDelay 1000
    timeout := jsNumOr cfg.timeout 30000 }

/-- The timeout assignment of the `UPSAuthProvider` constructor:
`timeout: config.timeout || 10000`. -/
def UPSAuthProvider.constructTimeout (timeout : Option Nat) : Nat :=
  jsNumOr timeout 10000

/-- The `AuthToken` record of `auth.interface.ts`: the cached Credential.
`expiresAt` is a Unix timestamp in seconds, set to acquisition time plus
`expires_in` on a successful exchange. -/
structure AuthToken where
  accessToken : String
  tokenType : String
  expiresIn : Int
  expiresAt : Int
  deriving DecidableEq

/-- The token-exchange success body (`UPSTokenResponse` of `ups-types.ts`).
`access_token = none` models a response object lacking the field; `some ""`
models the field present but empty (both are falsy in the source check
`!response.data.access_token`). -/
structure UPSTokenResponse where
  access_token : Option String
  token_type : String
  expires_in : Int
  deriving DecidableEq

/-- Mutable state of a `UPSAuthProvider` instance: the cached Credential
(`cachedToken`) and whether the shared Pending Acquisition slot
(`tokenPromise`) currently holds an in-flight promise. -/
structure AuthState where
  cachedToken : Option AuthToken
  tokenPromise : Bool
  deriving DecidableEq

/-- The fresh state of a newly constructed provider: no Credential, no
Pending Acquisition. -/
def emptyAuthState : AuthState :=
  { cachedToken := none, tokenPromise := false }

/-- The constant `REFRESH_BUFFER_SECONDS = 300` of `UPSAuthProvider`. -/
def REFRESH_BUFFER_SECONDS : Int := 300

/-- Shallow embedding of `UPSAuthProvider.hasValidToken`: false with no
cached Credential, otherwise `now < expiresAt - REFRESH_BUFFER_SECONDS`. -/
def hasValidToken (st : AuthState) (now : Int) : Bool :=
  match st.cachedToken with
  | none => false
  | some t => now < t.expiresAt - REFRESH_BUFFER_SECONDS

/-- Shallow embedding of `UPSAuthProvider.getTimeUntilExpiry`: 0 with no
cached Credential, otherwise `max(0, expiresAt - now)`. -/
def getTimeUntilExpiry (st : AuthState) (now : Int) : Int :=
  match st.cachedToken with
  | none => 0
  | some t => max 0 (t.expiresAt - now)

/-- Shallow embedding of `UPSAuthProvider.clearToken`: discards the cached
Credential and nothing else. -/
def clearToken (st : AuthState) : AuthState :=
  { st with cachedToken := none }

/-- Stringification of the internally thrown missing-access_token
`CarrierAuthError` as interpolated by the catch-all rethrow
(`Unexpected error during token acquisition: ` followed by the error). -/
def missingTokenMsg : String :=
  "Error: Invalid token response: missing access_token"

/-- The Auth error eventually raised by `acquireToken` when the exchange
succeeds but the body lacks a (truthy) `access_token`: the inner
`CarrierAuthError` is caught by the own catch clause of `acquireToken`, which
clears the cache and rethrows it wrapped in the catch-all `CarrierAuthError`
(the inner error carries no `response` property, so neither status branch of
the catch applies). -/
def missingTokenErr : CarrierErr :=
  .authErr ("Unexpected error during token acquisition: " ++ missingTokenMsg)
    (some "UPS") .jsErrorObj

/-- The catch clause of `UPSAuthProvider.acquireToken` applied to a transport
failure of the token exchange: status 401/403 and 429 map to dedicated Auth
errors; a missing response and any other status map to the generic
`Failed to acquire token` Auth error. Every branch constructs a
`CarrierAuthError` (taxonomy kind Auth). -/
def classifyTokenFailure (ax : AxiosFailure) : CarrierErr :=
  if ax.status = some 401 ∨ ax.status = some 403 then
    .authErr
      ("Authentication failed: Invalid credentials (" ++
        (match ax.status with | some st => toString st | none => "") ++ ")")
      (some "UPS") (.bodyVal ax.body)
  else if ax.status = some 429 then
    .authErr "Authentication rate limited by UPS" (some "UPS") (.bodyVal ax.body)
  else
    .authErr ("Failed to acquire token: " ++ ax.message) (some "UPS") .jsErrorObj

/-- Shallow embedding of the settlement of `UPSAuthProvider.acquireToken`,
parameterised by the outcome `resp` of the single network exchange it issues:

* a success body whose `access_token` is falsy throws the missing-token
  `CarrierAuthError`, which the own catch clause of `acquireToken` then
  clears the cache for and rewraps in the catch-all Auth error;
* a success body with a token caches a Credential expiring at
  `now + expires_in` and resolves to the token string;
* a transport failure clears the cache and throws `classifyTokenFailure`.

The returned state is the provider state after the promise settles; the
`Except` is the settlement value shared by every awaiter of the promise. -/
def acquireTokenSettle (st : AuthState) (now : Int)
    (resp : Except AxiosFailure UPSTokenResponse) : AuthState × Except CarrierErr String :=
  match resp with
  | .ok r =>
    match r.access_token with
    | some tok =>
      if tok = "" then
        ({ st with cachedToken := none }, .error missingTokenErr)
      else
        let t : AuthToken :=
          { accessToken := tok, tokenType := r.token_type,
            expiresIn := r.expires_in, expiresAt := now + r.expires_in }
        ({ st with cachedToken := some t }, .ok tok)
    | none =>
      ({ st with cachedToken := none }, .error missingTokenErr)
  | .error ax =>
    ({ st with cachedToken := none }, .error (classifyTokenFailure ax))

/-- What a single `getToken()` call does during its synchronous front half.
Under the single-threaded cooperative model of the runtime the code from
entry of `getToken` up to the first suspension point runs atomically: the
`hasValidToken` check, the `tokenPromise` check, and (on the acquiring path)
the assignment `this.tokenPromise = this.acquireToken()` all happen before
any other caller can run, because `acquireToken` reaches no `await` before
issuing the network post. -/
inductive CallerPlan
  | cached (tok : String)
  | joined
  | starter
  deriving DecidableEq

/-- Atomic front half of `UPSAuthProvider.getToken`: return the cached token
when valid; join the Pending Acquisition when one is in flight; otherwise
become the starter, occupying the Pending Acquisition slot. -/
def getTokenEnter (st : AuthState) (now : Int) : AuthState × CallerPlan :=
  if hasValidToken st now then
    (st, .cached (match st.cachedToken with | some t => t.accessToken | none => ""))
  else if st.tokenPromise then
    (st, .joined)
  else
    ({ st with tokenPromise := true }, .starter)

/-- A wave of `n` concurrent `getToken()` callers, entering one at a time in
program order (any interleaving of the atomic front halves is such a
sequence), all before the in-flight exchange settles. -/
def runWave (st : AuthState) (now : Int) : Nat → AuthState × List CallerPlan
  | 0 => (st, [])
  | n + 1 =>
    let (st1, p) := getTokenEnter st now
    let (st2, ps) := runWave st1 now n
    (st2, p :: ps)

/-- Number of callers of a wave that start their own token-exchange network
call: each `starter` issues exactly one exchange, `cached` and `joined`
callers issue none. -/
def countStarters (ps : List CallerPlan) : Nat :=
  ps.countP (fun p => p = .starter)

/-- The value a caller ultimately observes, given the settlement value of the
shared Pending Acquisition: a cached caller returns its token immediately;
the starter and every joined caller await the same promise and observe the
same settled value. -/
def callerResult (res : Except CarrierErr String) : CallerPlan → Except CarrierErr String
  | .cached t => .ok t
  | .joined => res
  | .starter => res

/-- Settlement of the in-flight exchange followed by the `finally` block of
the starter in `getToken`, which clears the Pending Acquisition slot
regardless of outcome. -/
def settleAndClear (st : AuthState) (now : Int)
    (resp : Except AxiosFailure UPSTokenResponse) : AuthState × Except CarrierErr String :=
  ({ (acquireTokenSettle st now resp).1 with tokenPromise := false },
   (acquireTokenSettle st now resp).2)

/-- Outcome of one sequential (non-racing) call into the provider: either a
settled value, or the caller attached to an already-pending acquisition whose
settlement lies outside the call. -/
inductive SeqResult
  | value (r : Except CarrierErr String)
  | awaitsPending

/-- Observable effect of one sequential call: resulting provider state, the
outcome, and how many token-exchange network calls the call issued. -/
structure CallResult where
  state : AuthState
  outcome : SeqResult
  networkCalls : Nat

/-- A full sequential `getToken()` call, parameterised by the outcome `resp`
the network exchange would produce if one is issued: valid cache hits return
the cached token with no network call; a pending acquisition is joined;
otherwise the call occupies the slot, runs the exchange to settlement and
clears the slot in the `finally` block. -/
def getTokenRun (st : AuthState) (now : Int)
    (resp : Except AxiosFailure UPSTokenResponse) : CallResult :=
  if hasValidToken st now then
    { state := st
      outcome := .value (.ok (match st.cachedToken with | some t => t.accessToken | none => ""))
      networkCalls := 0 }
  else if st.tokenPromise then
    { state := st, outcome := .awaitsPending, networkCalls := 0 }
  else
    { state :=
        { (acquireTokenSettle { st with tokenPromise := true } now resp).1 with
            tokenPromise := false }
      outcome := .value (acquireTokenSettle { st with tokenPromise := true } now resp).2
      networkCalls := 1 }

/-- Shallow embedding of `UPSAuthProvider.refreshToken`: `clearToken()`
followed by the very same `getToken()` logic. -/
def refreshTokenRun (st : AuthState) (now : Int)
    (resp : Except AxiosFailure UPSTokenResponse) : CallResult :=
  getTokenRun (clearToken st) now resp

/-! Concrete inputs used by the claim theorems and witnesses. -/

/-- Terminal 429 from the business endpoint with header `retry-after: 7`. -/
def ax429 : AxiosFailure :=
  { status := some 429, code := some "ERR_BAD_REQUEST", retryAfterHeader := some "7",
    body := .absent, message := "Request failed with status code 429" }

/-- Terminal 503 from the business endpoint. -/
def ax503 : AxiosFailure :=
  { status := some 503, message := "Request failed with status code 503" }

/-- A 4xx body matching the UPS structured business-error envelope. -/
def envBody : RespBody :=
  .upsEnvelope [{ code := "110002", message := "Missing ShipTo postal code" }]

/-- Terminal 400 whose body is the UPS envelope. -/
def ax400env : AxiosFailure :=
  { status := some 400, body := envBody, message := "Request failed with status code 400" }

/-- Terminal 400 whose body is an object that is not the UPS envelope. -/
def ax400plain : AxiosFailure :=
  { status := some 400, body := .plainObj, message := "Request failed with status code 400" }

/-- A successful token-exchange body. -/
def respA : UPSTokenResponse :=
  { access_token := some "token-one", token_type := "Bearer", expires_in := 3600 }

/-- A second successful token-exchange body with a different token. -/
def respB : UPSTokenResponse :=
  { access_token := some "token-two", token_type := "Bearer", expires_in := 3600 }

/-- Claim C10: constructing `HttpClient` with `maxRetries = 0`,
`retryDelay = 0` and `timeout = 0` yields the defaults 3, 1000 ms and
30000 ms, and constructing `UPSAuthProvider` with `timeout = 0` yields the
default 10000 ms: the falsy-or operator replaces an explicit 0 by the
default. -/
theorem C10_zero_config_defaults :
    HttpClient.construct { timeout := some 0, maxRetries := some 0, retryDelay := some 0 } =
      { maxRetries := 3, retryDelay := 1000, timeout := 30000 }
    ∧ UPSAuthProvider.constructTimeout (some 0) = 10000 := by
  exact ⟨rfl, rfl⟩

/-- Claim C2 (code behavior at the failing input): a classified
`CarrierError` is never recognised as retryable by `shouldRetry`, and since
the response interceptor classifies every axios failure before
`requestWithRetry` can catch it, a transport that always fails with HTTP 503
produces exactly one attempt, no backoff delays, and the immediately raised
classified Network error, for every configured `maxRetries` and `retryDelay`
budget, contradicting the 4-attempt retry ceiling. -/
theorem C2_interceptor_defeats_retry :
    (∀ e : CarrierErr, shouldRetry (ThrownErr.classified e) = false)
    ∧ (∀ maxRetries retryDelay : Nat,
        (requestWithRetry maxRetries retryDelay (interceptedAttempt always503)).attempts = 1
        ∧ (requestWithRetry maxRetries retryDelay (interceptedAttempt always503)).delays = []
        ∧ (requestWithRetry maxRetries retryDelay (interceptedAttempt always503)).result =
            .error (.classified (.networkErr "Server error: Request failed with status code 503"
              (.str "UNKNOWN") .jsUndefined (.num 503)))) := by
  refine ⟨fun e => rfl, fun maxRetries retryDelay => ?_⟩
  cases maxRetries <;> exact ⟨rfl, rfl, rfl⟩

/-- Claim C3 (code behavior at the failing input): on a terminal 429 with
header `retry-after: 7` the transport raises a RateLimit-kind error, but its
`retryAfter` field holds the string `UNKNOWN` while the parsed integer 7
lands in `originalError`, because the call site passes the constructor
arguments of `CarrierRateLimitError` in the wrong order. -/
theorem C3_retryAfter_field_not_parsed_header :
    handleError ax429 =
      .rateLimitErr "Request rate limited" (.str "UNKNOWN") (.str "ERR_BAD_REQUEST") (.num 7)
    ∧ (handleError ax429).kind = ErrKind.rateLimit
    ∧ (handleError ax429).retryAfterField ≠ some (JVal.num 7)
    ∧ (handleError ax429).originalErrorField = JVal.num 7 := by
  refine ⟨by decide, rfl, by decide, by decide⟩

/-- Claim C4 (code behavior at the failing input): on a terminal 503 the
transport raises a Network-kind error, but its `statusCode` field holds the
string `UNKNOWN` while the status 503 lands in `originalError`, because the
call site passes the constructor arguments of `CarrierNetworkError` in the
wrong order. -/
theorem C4_statusCode_field_not_status :
    handleError ax503 =
      .networkErr "Server error: Request failed with status code 503"
        (.str "UNKNOWN") .jsUndefined (.num 503)
    ∧ (handleError ax503).kind = ErrKind.network
    ∧ (handleError ax503).statusCodeField ≠ some (JVal.num 503)
    ∧ (handleError ax503).originalErrorField = JVal.num 503 := by
  refine ⟨rfl, rfl, ?_, rfl⟩
  decide

/-- Claim C5 (code behavior at the failing inputs): on a terminal 400 whose
body is the UPS envelope, the raised Business-kind error carries the first
entry message but its `code` attribute is the literal `UPS` — the first
entry code lands in the `carrier` argument slot; on a terminal 400 with a
non-envelope body, the raised Response-kind error has `UNKNOWN` in its
`response` field while the raw body lands in `originalError`. -/
theorem C5_business_code_and_response_body_misplaced :
    handleError ax400env =
      .businessErr "Missing ShipTo postal code" "UPS" (.str "110002") (.bodyVal envBody)
    ∧ (handleError ax400env).kind = ErrKind.business
    ∧ (handleError ax400env).code ≠ "110002"
    ∧ handleError ax400plain =
      .responseErr "Client error: Request failed with status code 400"
        (.str "UNKNOWN") .jsUndefined (.bodyVal RespBody.plainObj)
    ∧ (handleError ax400plain).kind = ErrKind.response
    ∧ (handleError ax400plain).responseField ≠ some (JVal.bodyVal RespBody.plainObj) := by
  refine ⟨rfl, rfl, ?_, rfl, rfl, ?_⟩ <;> decide

/-- Claim C6: with a cached Credential, `hasValidToken` is true exactly when
`now` is strictly below the expiry minus the 300-second buffer, and
`getTimeUntilExpiry` is the raw clamped remaining lifetime, independent of
the buffer; in particular a Credential with lifetime 600 acquired at time T
is valid on `[T, T + 300)` and invalid from `T + 300` on. -/
theorem C6_buffer_correctness (st : AuthState) (t : AuthToken) (T now : Int)
    (hc : st.cachedToken = some t) :
    (hasValidToken st now = true ↔ now < t.expiresAt - REFRESH_BUFFER_SECONDS)
    ∧ getTimeUntilExpiry st now = max 0 (t.expiresAt - now)
    ∧ (t.expiresAt = T + 600 →
        ((T ≤ now ∧ now < T + 300) → hasValidToken st now = true)
        ∧ (T + 300 ≤ now → hasValidToken st now = false)) := by
  refine ⟨by simp [hasValidToken, hc], by simp [getTimeUntilExpiry, hc], fun hT => ⟨?_, ?_⟩⟩
  · intro h
    simp only [hasValidToken, hc, hT, REFRESH_BUFFER_SECONDS, decide_eq_true_eq]
    omega
  · intro h
    simp only [hasValidToken, hc, hT, REFRESH_BUFFER_SECONDS, decide_eq_false_iff_not]
    omega

/-- A Credential with lifetime 600 acquired at T = 0, for the C6 witness. -/
def tok600 : AuthToken :=
  { accessToken := "tok-600", tokenType := "Bearer", expiresIn := 600, expiresAt := 600 }

/-- Provider state caching `tok600`, for the C6 witness. -/
def st600 : AuthState :=
  { cachedToken := some tok600, tokenPromise := false }

/-- Witness for C6 at the concrete state `st600`, T = 0, now = 0. -/
theorem C6_buffer_correctness_witness :
    st600.cachedToken = some tok600
    ∧ ((hasValidToken st600 0 = true ↔ (0 : Int) < tok600.expiresAt - REFRESH_BUFFER_SECONDS)
      ∧ getTimeUntilExpiry st600 0 = max 0 (tok600.expiresAt - 0)
      ∧ (tok600.expiresAt = 0 + 600 →
          (((0 : Int) ≤ 0 ∧ (0 : Int) < 0 + 300) → hasValidToken st600 0 = true)
          ∧ ((0 : Int) + 300 ≤ 0 → hasValidToken st600 0 = false))) :=
  ⟨rfl, C6_buffer_correctness st600 tok600 0 0 rfl⟩

/-- Claim C7: a token-exchange success body whose `access_token` is missing
(or empty, equally falsy in the source check) settles the acquisition with an
Auth-kind classified error and leaves no Credential cached; moreover every
failed settlement of the acquisition, of any origin, leaves no Credential
cached. -/
theorem C7_missing_token_auth_and_atomic_failure (st : AuthState) (now : Int)
    (r : UPSTokenResponse) (hmiss : r.access_token = none ∨ r.access_token = some "") :
    ((acquireTokenSettle st now (.ok r)).2 = .error missingTokenErr
      ∧ missingTokenErr.kind = ErrKind.auth
      ∧ (acquireTokenSettle st now (.ok r)).1.cachedToken = none)
    ∧ (∀ (resp : Except AxiosFailure UPSTokenResponse) (e : CarrierErr),
        (acquireTokenSettle st now resp).2 = .error e →
        (acquireTokenSettle st now resp).1.cachedToken = none) := by
  constructor
  · rcases hmiss with h | h <;>
      simp [acquireTokenSettle, h, missingTokenErr, CarrierErr.kind]
  · intro resp e h
    match resp with
    | .error ax => simp [acquireTokenSettle]
    | .ok r' =>
      match hr : r'.access_token with
      | none => simp [acquireTokenSettle, hr]
      | some tok =>
        by_cases htok : tok = ""
        · simp [acquireTokenSettle, hr, htok]
        · simp [acquireTokenSettle, hr, htok] at h

/-- Success body lacking `access_token`, for the C7 witness. -/
def respMissing : UPSTokenResponse :=
  { access_token := none, token_type := "Bearer", expires_in := 3600 }

/-- Witness for C7 at the fresh provider state and the body lacking
`access_token`. -/
theorem C7_missing_token_auth_and_atomic_failure_witness :
    (respMissing.access_token = none ∨ respMissing.access_token = some "")
    ∧ (((acquireTokenSettle emptyAuthState 0 (.ok respMissing)).2 = .error missingTokenErr
        ∧ missingTokenErr.kind = ErrKind.auth
        ∧ (acquireTokenSettle emptyAuthState 0 (.ok respMissing)).1.cachedToken = none)
      ∧ (∀ (resp : Except AxiosFailure UPSTokenResponse) (e : CarrierErr),
          (acquireTokenSettle emptyAuthState 0 resp).2 = .error e →
          (acquireTokenSettle emptyAuthState 0 resp).1.cachedToken = none)) :=
  ⟨Or.inl rfl,
   C7_missing_token_auth_and_atomic_failure emptyAuthState 0 respMissing (Or.inl rfl)⟩

/-- Claim C8: a token-exchange transport failure with HTTP status 429 settles
the acquisition with the dedicated rate-limited `CarrierAuthError` — taxonomy
kind Auth, not RateLimit. -/
theorem C8_token_429_maps_to_auth (st : AuthState) (now : Int) (ax : AxiosFailure)
    (h429 : ax.status = some 429) :
    (acquireTokenSettle st now (.error ax)).2 =
      .error (.authErr "Authentication rate limited by UPS" (some "UPS") (.bodyVal ax.body))
    ∧ (classifyTokenFailure ax).kind = ErrKind.auth
    ∧ (classifyTokenFailure ax).kind ≠ ErrKind.rateLimit := by
  have hclass : classifyTokenFailure ax =
      .authErr "Authentication rate limited by UPS" (some "UPS") (.bodyVal ax.body) := by
    simp [classifyTokenFailure, h429]
  refine ⟨?_, by simp [hclass, CarrierErr.kind], by simp [hclass, CarrierErr.kind]⟩
  simp [acquireTokenSettle, hclass]

/-- Witness for C8 at the concrete 429 failure `ax429`. -/
theorem C8_token_429_maps_to_auth_witness :
    ax429.status = some 429
    ∧ ((acquireTokenSettle emptyAuthState 0 (.error ax429)).2 =
        .error (.authErr "Authentication rate limited by UPS" (some "UPS") (.bodyVal ax429.body))
      ∧ (classifyTokenFailure ax429).kind = ErrKind.auth
      ∧ (classifyTokenFailure ax429).kind ≠ ErrKind.rateLimit) :=
  ⟨rfl, C8_token_429_maps_to_auth emptyAuthState 0 ax429 rfl⟩

/-- Claim C9: `refreshToken` is definitionally `clearToken` followed by the
`getToken` logic; after a successful `getToken` from a state with no pending
acquisition, a `refreshToken` with a successful second exchange issues a
second network call, resolves to the (potentially different) second token,
and leaves `hasValidToken` true, provided the fresh lifetime exceeds the
refresh buffer. -/
theorem C9_forced_refresh (st : AuthState) (now1 now2 : Int) (r1 r2 : UPSTokenResponse)
    (tok1 tok2 : String)
    (h1 : r1.access_token = some tok1) (h1ne : tok1 ≠ "")
    (h2 : r2.access_token = some tok2) (h2ne : tok2 ≠ "")
    (hbuf : REFRESH_BUFFER_SECONDS < r2.expires_in)
    (hv0 : hasValidToken st now1 = false) (hp0 : st.tokenPromise = false) :
    (∀ (s : AuthState) (n : Int) (resp : Except AxiosFailure UPSTokenResponse),
        refreshTokenRun s n resp = getTokenRun (clearToken s) n resp)
    ∧ (getTokenRun st now1 (.ok r1)).outcome = .value (.ok tok1)
    ∧ (getTokenRun st now1 (.ok r1)).networkCalls = 1
    ∧ (refreshTokenRun (getTokenRun st now1 (.ok r1)).state now2 (.ok r2)).networkCalls = 1
    ∧ (refreshTokenRun (getTokenRun st now1 (.ok r1)).state now2 (.ok r2)).outcome =
        .value (.ok tok2)
    ∧ hasValidToken
        (refreshTokenRun (getTokenRun st now1 (.ok r1)).state now2 (.ok r2)).state now2 =
        true := by
  have hfirst : getTokenRun st now1 (.ok r1) =
      { state :=
          { cachedToken := some
              { accessToken := tok1, tokenType := r1.token_type,
                expiresIn := r1.expires_in, expiresAt := now1 + r1.expires_in }
            tokenPromise := false }
        outcome := .value (.ok tok1)
        networkCalls := 1 } := by
    simp [getTokenRun, hv0, hp0, acquireTokenSettle, h1, h1ne]
  have hsecond : refreshTokenRun (getTokenRun st now1 (.ok r1)).state now2 (.ok r2) =
      { state :=
          { cachedToken := some
              { accessToken := tok2, tokenType := r2.token_type,
                expiresIn := r2.expires_in, expiresAt := now2 + r2.expires_in }
            tokenPromise := false }
        outcome := .value (.ok tok2)
        networkCalls := 1 } := by
    rw [hfirst]
    simp [refreshTokenRun, clearToken, getTokenRun, hasValidToken, acquireTokenSettle, h2, h2ne]
  refine ⟨fun s n resp => rfl, ?_, ?_, ?_, ?_, ?_⟩
  · rw [hfirst]
  · rw [hfirst]
  · rw [hsecond]
  · rw [hsecond]
  · rw [hsecond]
    simp only [REFRESH_BUFFER_SECONDS] at hbuf
    simp only [hasValidToken, REFRESH_BUFFER_SECONDS, decide_eq_true_eq]
    omega

/-- Witness for C9: fresh provider, first exchange returns `token-one`, the
forced refresh returns `token-two`, both with lifetime 3600. -/
theorem C9_forced_refresh_witness :
    (respA.access_token = some "token-one" ∧ respB.access_token = some "token-two"
      ∧ REFRESH_BUFFER_SECONDS < respB.expires_in
      ∧ hasValidToken emptyAuthState 0 = false ∧ emptyAuthState.tokenPromise = false)
    ∧ ((∀ (s : AuthState) (n : Int) (resp : Except AxiosFailure UPSTokenResponse),
          refreshTokenRun s n resp = getTokenRun (clearToken s) n resp)
      ∧ (getTokenRun emptyAuthState 0 (.ok respA)).outcome = .value (.ok "token-one")
      ∧ (getTokenRun emptyAuthState 0 (.ok respA)).networkCalls = 1
      ∧ (refreshTokenRun (getTokenRun emptyAuthState 0 (.ok respA)).state 10 (.ok respB)).networkCalls = 1
      ∧ (refreshTokenRun (getTokenRun emptyAuthState 0 (.ok respA)).state 10 (.ok respB)).outcome =
          .value (.ok "token-two")
      ∧ hasValidToken
          (refreshTokenRun (getTokenRun emptyAuthState 0 (.ok respA)).state 10 (.ok respB)).state 10 =
          true) :=
  ⟨⟨rfl, rfl, by norm_num [REFRESH_BUFFER_SECONDS, respB], rfl, rfl⟩,
   C9_forced_refresh emptyAuthState 0 10 respA respB "token-one" "token-two"
     rfl (by simp) rfl (by simp)
     (by norm_num [REFRESH_BUFFER_SECONDS, respB]) rfl rfl⟩

/-- Helper: once the Pending Acquisition slot is occupied and no valid
Credential is cached, every further caller of the same wave joins the pending
acquisition and the provider state is left untouched. -/
theorem runWave_joined (now : Int) (n : Nat) :
    ∀ st : AuthState, st.tokenPromise = true → hasValidToken st now = false →
      runWave st now n = (st, List.replicate n CallerPlan.joined) := by
  induction n with
  | zero => intro st hp hv; simp [runWave]
  | succ m ih =>
    intro st hp hv
    have he : getTokenEnter st now = (st, .joined) := by
      simp [getTokenEnter, hv, hp]
    simp [runWave, he, ih st hp hv, List.replicate_succ]

/-- Helper: joined callers start no network exchange. -/
theorem countStarters_replicate_joined (m : Nat) :
    countStarters (List.replicate m CallerPlan.joined) = 0 := by
  induction m with
  | zero => rfl
  | succ k ih =>
    simp only [countStarters, List.replicate_succ, List.countP_cons] at ih ⊢
    simp [ih]

/-- Claim C1: for every wave of `n ≥ 1` concurrent `getToken()` callers
entering while no valid Credential is cached and no acquisition is pending,
exactly one caller starts the token-exchange network call; every caller of
the wave observes the very settlement value of that single shared exchange
(the same token string or the same raised error); the Pending Acquisition
slot is clear after the exchange settles; and a later `getToken()` arriving
when the cache is (still or again) invalid starts a fresh exchange. -/
theorem C1_single_flight (n : Nat) (hn : 1 ≤ n) (st0 : AuthState) (now now2 : Int)
    (resp : Except AxiosFailure UPSTokenResponse)
    (hv : hasValidToken st0 now = false) (hp : st0.tokenPromise = false) :
    countStarters (runWave st0 now n).2 = 1
    ∧ (runWave st0 now n).2.map (callerResult (settleAndClear (runWave st0 now n).1 now2 resp).2)
        = List.replicate n (settleAndClear (runWave st0 now n).1 now2 resp).2
    ∧ (settleAndClear (runWave st0 now n).1 now2 resp).1.tokenPromise = false
    ∧ (hasValidToken (settleAndClear (runWave st0 now n).1 now2 resp).1 now2 = false →
        (getTokenEnter (settleAndClear (runWave st0 now n).1 now2 resp).1 now2).2 =
          CallerPlan.starter) := by
  obtain ⟨m, rfl⟩ : ∃ m, n = m + 1 := ⟨n - 1, by omega⟩
  have hv1 : hasValidToken { st0 with tokenPromise := true } now = false := hv
  have he : getTokenEnter st0 now = ({ st0 with tokenPromise := true }, .starter) := by
    simp [getTokenEnter, hv, hp]
  have hw : runWave st0 now (m + 1) =
      ({ st0 with tokenPromise := true },
       .starter :: List.replicate m CallerPlan.joined) := by
    simp [runWave, he, runWave_joined now m { st0 with tokenPromise := true } rfl hv1]
  rw [hw]
  refine ⟨?_, ?_, rfl, ?_⟩
  · have hrep := countStarters_replicate_joined m
    simp only [countStarters, List.countP_cons] at hrep ⊢
    simp [hrep]
  · simp [callerResult, List.map_replicate, List.replicate_succ]
  · intro h
    simp only [settleAndClear] at h
    simp [getTokenEnter, settleAndClear, h]

/-- Witness for C1: three concurrent callers against the fresh provider with
a successful exchange. -/
theorem C1_single_flight_witness :
    (1 ≤ 3 ∧ hasValidToken emptyAuthState 0 = false ∧ emptyAuthState.tokenPromise = false)
    ∧ (countStarters (runWave emptyAuthState 0 3).2 = 1
      ∧ (runWave emptyAuthState 0 3).2.map
          (callerResult (settleAndClear (runWave emptyAuthState 0 3).1 0 (.ok respA)).2)
          = List.replicate 3 (settleAndClear (runWave emptyAuthState 0 3).1 0 (.ok respA)).2
      ∧ (settleAndClear (runWave emptyAuthState 0 3).1 0 (.ok respA)).1.tokenPromise = false
      ∧ (hasValidToken (settleAndClear (runWave emptyAuthState 0 3).1 0 (.ok respA)).1 0 = false →
          (getTokenEnter (settleAndClear (runWave emptyAuthState 0 3).1 0 (.ok respA)).1 0).2 =
            CallerPlan.starter)) :=
  ⟨⟨by norm_num, rfl, rfl⟩,
   C1_single_flight 3 (by norm_num) emptyAuthState 0 0 (.ok respA) rfl rfl⟩
